import Mathlib

/-!
Verification of the UI-automation repository's core behaviors:
the exploration agent's result-file boundary (src/agent/agent_runner.py)
and the backend Job Pipeline / Versioned Run State Machine, whose server
implementation is exercised by the integration tests under
src/integration_tests/ and specified in spec.md.
-/

namespace UIAutomation

/-! ## Agent runner embedding (src/agent/agent_runner.py) -/

/-- One step of a test procedure, as in the result.json artifact shape
`{name, instructions, image_paths}`. -/
structure Step where
  name : String
  instructions : String
  image_paths : List String
  deriving Repr, DecidableEq

/-- The structured result artifact written to `{output_dir}/result.json`:
`{procedure_name, description, steps, summary}`. -/
structure ResultArtifact where
  procedure_name : String
  description : String
  steps : List Step
  summary : String
  deriving Repr, DecidableEq

/-- Content of the file at `{output_dir}/result.json` after the run: either
whatever the agent itself wrote via its tools (arbitrary bytes), or the
structured fallback written by `run_agent`. -/
inductive ResultFile where
  | agentProduced (content : String)
  | fallback (a : ResultArtifact)
  deriving Repr, DecidableEq

/-- A content block of a message from the agent SDK: only `TextBlock`s are
inspected by `run_agent`. -/
inductive ContentBlock where
  | text (s : String)
  | other
  deriving Repr, DecidableEq

/-- A message from the agent SDK query stream: only `AssistantMessage`s are
inspected by `run_agent`. -/
inductive Message where
  | assistant (content : List ContentBlock)
  | other
  deriving Repr, DecidableEq

/-- The inner loop of `run_agent` over one assistant message's blocks:
`final_text = block.text` for each TextBlock, so the accumulator ends as the
last text block seen. -/
def finalTextBlocks (acc : String) : List ContentBlock → String
  | [] => acc
  | ContentBlock.text s :: rest => finalTextBlocks s rest
  | ContentBlock.other :: rest => finalTextBlocks acc rest

/-- The `async for message in query(...)` loop of `run_agent`, reduced to its
observable effect: `final_text` is the text of the last TextBlock of any
AssistantMessage, starting from the empty string. -/
def finalText (acc : String) : List Message → String
  | [] => acc
  | Message.assistant blocks :: rest => finalText (finalTextBlocks acc blocks) rest
  | Message.other :: rest => finalText acc rest

/-- The exploration agent's input configuration (read from stdin JSON):
`target_url` and `output_dir` are required by `main`, `procedure_name` is
optional with default "UI Exploration", credentials are optional. -/
structure AgentConfig where
  target_url : String
  credentials : List (String × String)
  procedure_name : Option String
  output_dir : String
  deriving Repr, DecidableEq

/-- The fallback artifact written by `run_agent` (agent_runner.py lines
130-146) when the agent did not create result.json itself: a single step
whose instructions are `final_text or "Agent did not produce structured
output"`. -/
def fallbackArtifact (procedure_name target_url final_text : String) : ResultArtifact :=
  { procedure_name := procedure_name
  , description := "Auto-generated exploration of " ++ target_url
  , steps := [ { name := "Initial observation"
               , instructions :=
                   if final_text = "" then "Agent did not produce structured output"
                   else final_text
               , image_paths := [] } ]
  , summary := "Exploration completed with fallback output" }

/-- `run_agent` (agent_runner.py lines 77-146), modelled as its effect on the
file `{output_dir}/result.json`: `existing` is the file's content when the
query loop finishes (`none` if absent); the function returns the file's
content after `run_agent` returns. If the file exists it is left untouched;
if absent, the fallback artifact is written. -/
def run_agent (cfg : AgentConfig) (messages : List Message)
    (existing : Option ResultFile) : Option ResultFile :=
  let procedure_name := cfg.procedure_name.getD "UI Exploration"
  let final_text := finalText "" messages
  match existing with
  | some f => some f
  | none => some (ResultFile.fallback
      (fallbackArtifact procedure_name cfg.target_url final_text))

/-- C1: for every configuration, when run_agent completes the result.json
file exists; if the agent's run did not produce it, the boundary writes the
fallback artifact with exactly one degraded step whose instructions carry the
agent's free-text output, or the placeholder "Agent did not produce
structured output" if there was none, so the result contains at least one
step. -/
theorem run_agent_result_file_guarantee (cfg : AgentConfig)
    (messages : List Message) (existing : Option ResultFile) :
    (run_agent cfg messages existing).isSome = true
    ∧ (existing = none →
        run_agent cfg messages existing
          = some (ResultFile.fallback
              (fallbackArtifact (cfg.procedure_name.getD "UI Exploration")
                cfg.target_url (finalText "" messages)))
        ∧ (fallbackArtifact (cfg.procedure_name.getD "UI Exploration")
            cfg.target_url (finalText "" messages)).steps.length = 1
        ∧ ((fallbackArtifact (cfg.procedure_name.getD "UI Exploration")
            cfg.target_url (finalText "" messages)).steps.map Step.instructions)
          = [if finalText "" messages = "" then "Agent did not produce structured output"
             else finalText "" messages]) := by
  constructor
  · cases existing <;> simp [run_agent]
  · intro h
    subst h
    refine ⟨rfl, rfl, ?_⟩
    simp [fallbackArtifact]

/-- A concrete agent configuration used to witness the boundary guarantee. -/
def sampleAgentConfig : AgentConfig :=
  { target_url := "https://example.com"
  , credentials := []
  , procedure_name := none
  , output_dir := "/tmp/out" }

/-- Witness for C1 at a concrete configuration with no pre-existing
result.json and no agent text output: the placeholder fallback is written. -/
theorem run_agent_result_file_guarantee_witness :
    (run_agent sampleAgentConfig [] none).isSome = true
    ∧ (run_agent sampleAgentConfig [] none
        = some (ResultFile.fallback
            (fallbackArtifact "UI Exploration" "https://example.com" ""))
      ∧ (fallbackArtifact "UI Exploration" "https://example.com" "").steps.length = 1
      ∧ ((fallbackArtifact "UI Exploration" "https://example.com" "").steps.map
          Step.instructions) = ["Agent did not produce structured output"]) := by
  have h := run_agent_result_file_guarantee sampleAgentConfig [] none
  refine ⟨h.1, ?_⟩
  have h2 := h.2 rfl
  simpa [sampleAgentConfig, finalText] using h2

/-- C10: if result.json already exists when the agent query loop finishes,
run_agent returns it unmodified; the fallback is written only when the file
is absent, so an artifact produced by the agent is never overwritten. -/
theorem run_agent_preserves_agent_artifact (cfg : AgentConfig)
    (messages : List Message) (f : ResultFile) :
    run_agent cfg messages (some f) = some f := by
  simp [run_agent]

/-! ## Error taxonomy (spec §7) -/

/-- Modelled from the spec: the backend's error taxonomy (§7); the server
implementation is not under src/, only the integration tests that observe
its HTTP status codes. -/
inductive ApiError where
  | invalidConfig
  | unauthenticated
  | forbidden
  | notFound
  | conflict
  | invalidTransition
  | upstreamFailure
  deriving Repr, DecidableEq

/-- Modelled from the spec: the HTTP status code each error maps to (§7). -/
def ApiError.statusCode : ApiError → Nat
  | .invalidConfig => 400
  | .unauthenticated => 401
  | .forbidden => 403
  | .notFound => 404
  | .conflict => 409
  | .invalidTransition => 400
  | .upstreamFailure => 500

/-! ## Run State Machine (spec §4.3; exercised by
src/integration_tests/tests/test_runs.py) -/

/-- A test run's lifecycle status (client/models.py constants). -/
inductive RunStatus where
  | pending
  | running
  | passed
  | failed
  | skipped
  deriving Repr, DecidableEq

/-- A completion outcome: the terminal statuses accepted by `complete`. -/
inductive Outcome where
  | passed
  | failed
  | skipped
  deriving Repr, DecidableEq

/-- The run status a completion outcome settles to. -/
def Outcome.toStatus : Outcome → RunStatus
  | .passed => .passed
  | .failed => .failed
  | .skipped => .skipped

/-- Modelled from the spec: the backend TestRun record (§3); the Run State
Machine implementation is not under src/. Timestamps are abstract ticks. -/
structure TestRun where
  procedure_version : Nat
  status : RunStatus
  assigned_to : Option String
  started_at : Option Nat
  completed_at : Option Nat
  notes : String
  deriving Repr, DecidableEq

/-- Modelled from the spec: `create(procedureVersion)` of the Run State
Machine (§4.3), absent from src/: requires an immutable (version ≥ 1)
snapshot and produces a run in `pending`. -/
def createRun (version : Nat) : Except ApiError TestRun :=
  if 1 ≤ version then
    .ok { procedure_version := version
        , status := .pending
        , assigned_to := none
        , started_at := none
        , completed_at := none
        , notes := "" }
  else .error .invalidConfig

/-- Modelled from the spec: `start(run)` of the Run State Machine (§4.3),
absent from src/: legal only from `pending`; sets status running and
started_at; otherwise fails with InvalidTransition. The check-then-set is
atomic per §4.3's concurrency requirement. -/
def start (r : TestRun) (now : Nat) : Except ApiError TestRun :=
  if r.status = .pending then
    .ok { r with status := .running, started_at := some now }
  else .error .invalidTransition

/-- Modelled from the spec: `complete(run, outcome, notes)` of the Run State
Machine (§4.3), absent from src/: legal only from `running`; sets the
terminal status and completed_at; otherwise fails with InvalidTransition.
The check-then-set is atomic per §4.3's concurrency requirement. -/
def complete (r : TestRun) (outcome : Outcome) (notes : Option String)
    (now : Nat) : Except ApiError TestRun :=
  if r.status = .running then
    .ok { r with status := outcome.toStatus,
                 completed_at := some now,
                 notes := notes.getD r.notes }
  else .error .invalidTransition

/-- C2: a run created against an immutable version starts pending; start on
pending yields running with started_at set; complete on running with an
outcome in {passed, failed, skipped} yields that outcome with completed_at
set; start on non-pending and complete on non-running fail with
InvalidTransition. -/
theorem run_lifecycle (v t1 t2 : Nat) (r : TestRun) (o : Outcome)
    (n : Option String) :
    (1 ≤ v → ∃ r0, createRun v = .ok r0 ∧ r0.status = .pending)
    ∧ (r.status = .pending →
        ∃ r1, start r t1 = .ok r1 ∧ r1.status = .running
          ∧ r1.started_at = some t1)
    ∧ (r.status = .running →
        ∃ r2, complete r o n t2 = .ok r2 ∧ r2.status = o.toStatus
          ∧ r2.completed_at = some t2)
    ∧ (r.status ≠ .pending → start r t1 = .error .invalidTransition)
    ∧ (r.status ≠ .running →
        complete r o n t2 = .error .invalidTransition) := by
  refine ⟨?_, ?_, ?_, ?_, ?_⟩
  · intro hv
    refine ⟨{ procedure_version := v, status := .pending, assigned_to := none, started_at := none, completed_at := none, notes := "" }, ?_, rfl⟩
    simp [createRun, hv]
  · intro hp
    refine ⟨{ r with status := .running, started_at := some t1 }, ?_, rfl, rfl⟩
    simp [start, hp]
  · intro hr
    refine ⟨{ r with status := o.toStatus, completed_at := some t2, notes := n.getD r.notes }, ?_, rfl, rfl⟩
    simp [complete, hr]
  · intro hnp
    simp [start, hnp]
  · intro hnr
    simp [complete, hnr]

/-- A concrete running run used to witness illegal transitions. -/
def sampleRunningRun : TestRun :=
  { procedure_version := 1
  , status := .running
  , assigned_to := none
  , started_at := some 3
  , completed_at := none
  , notes := "" }

/-- Witness for C2 at version 1 and concrete pending/running runs. -/
theorem run_lifecycle_witness :
    (∃ r0, createRun 1 = .ok r0 ∧ r0.status = .pending)
    ∧ (∃ r2, complete sampleRunningRun .passed (some "All tests passed") 7
        = .ok r2 ∧ r2.status = Outcome.passed.toStatus
        ∧ r2.completed_at = some 7)
    ∧ start sampleRunningRun 9 = .error .invalidTransition := by
  refine ⟨?_, ?_, ?_⟩
  · exact (run_lifecycle 1 9 7 sampleRunningRun .passed (some "All tests passed")).1
      (by decide)
  · exact (run_lifecycle 1 9 7 sampleRunningRun .passed
      (some "All tests passed")).2.2.1 rfl
  · exact (run_lifecycle 1 9 7 sampleRunningRun .passed
      (some "All tests passed")).2.2.2.1 (by decide)

/-! ## Partial update of a run (spec §4.3 `assign`, §6 PUT /runs/id;
exercised by test_runs.py TestAssignUser) -/

/-- Modelled from the spec: the body of a PUT /runs/{id} partial update —
only the specified fields are present (the client sends `assigned_to` only
for assign/unassign and `notes` only when updating notes); `some none`
models the explicit unassignment the client sends as an empty value. -/
structure RunUpdate where
  notes : Option String
  assigned_to : Option (Option String)
  deriving Repr, DecidableEq

/-- Modelled from the spec: the backend's partial-update handler for runs
(§4.3, absent from src/): a partial update must preserve unspecified
fields and apply specified ones. -/
def updateRun (r : TestRun) (u : RunUpdate) : TestRun :=
  { r with notes := u.notes.getD r.notes,
           assigned_to := u.assigned_to.getD r.assigned_to }

/-- C8: a partial update naming only other fields (e.g. notes) preserves an
existing assignment, and symmetrically an update not naming notes preserves
notes; fields that are specified are applied. -/
theorem partial_update_preserves_unspecified (r : TestRun) (u : RunUpdate) :
    (u.assigned_to = none → (updateRun r u).assigned_to = r.assigned_to)
    ∧ (u.notes = none → (updateRun r u).notes = r.notes)
    ∧ (∀ s, u.notes = some s → (updateRun r u).notes = s)
    ∧ (updateRun r u).status = r.status := by
  refine ⟨?_, ?_, ?_, rfl⟩
  · intro h; simp [updateRun, h]
  · intro h; simp [updateRun, h]
  · intro s h; simp [updateRun, h]

/-- A concrete assigned run used to witness partial-update preservation. -/
def sampleAssignedRun : TestRun :=
  { procedure_version := 1
  , status := .pending
  , assigned_to := some "user-1"
  , started_at := none
  , completed_at := none
  , notes := "" }

/-- Witness for C8: updating only the notes of an assigned run keeps the
assignment and applies the notes. -/
theorem partial_update_preserves_unspecified_witness :
    (updateRun sampleAssignedRun
        { notes := some "some notes", assigned_to := none }).assigned_to
      = some "user-1"
    ∧ (updateRun sampleAssignedRun
        { notes := some "some notes", assigned_to := none }).notes
      = "some notes" := by
  have h := partial_update_preserves_unspecified sampleAssignedRun
    { notes := some "some notes", assigned_to := none }
  exact ⟨h.1 rfl, h.2.2.1 "some notes" rfl⟩

/-- C9: under the spec's atomic check-then-set requirement, any
serialization of two concurrent start requests on a pending run has exactly
one success and one InvalidTransition (the loser does not silently no-op);
the analogous guarantee holds for two completes on a running run. -/
theorem concurrent_transitions_exactly_one_winner (r q : TestRun)
    (t1 t2 : Nat) (o1 o2 : Outcome) (n1 n2 : Option String)
    (hr : r.status = .pending) (hq : q.status = .running) :
    (∃ r1, start r t1 = .ok r1
      ∧ start r1 t2 = .error .invalidTransition)
    ∧ (∃ q1, complete q o1 n1 t1 = .ok q1
      ∧ complete q1 o2 n2 t2 = .error .invalidTransition) := by
  constructor
  · refine ⟨{ r with status := .running, started_at := some t1 }, ?_, ?_⟩
    · simp [start, hr]
    · simp [start]
  · refine ⟨{ q with status := o1.toStatus, completed_at := some t1, notes := n1.getD q.notes }, ?_, ?_⟩
    · simp [complete, hq]
    · cases o1 <;> simp [complete, Outcome.toStatus]

/-- Witness for C9 at a concrete pending run and a concrete running run. -/
theorem concurrent_transitions_exactly_one_winner_witness :
    ((createRun 1).toOption.getD sampleRunningRun).status = .pending
    ∧ sampleRunningRun.status = .running
    ∧ ((∃ r1, start ((createRun 1).toOption.getD sampleRunningRun) 4 = .ok r1
        ∧ start r1 5 = .error .invalidTransition)
      ∧ (∃ q1, complete sampleRunningRun .failed (some "a") 4 = .ok q1
        ∧ complete q1 .passed (some "b") 5 = .error .invalidTransition)) := by
  refine ⟨by decide, rfl, ?_⟩
  exact concurrent_transitions_exactly_one_winner
    ((createRun 1).toOption.getD sampleRunningRun) sampleRunningRun
    4 5 .failed .passed (some "a") (some "b") (by decide) rfl

/-! ## Procedure Version Store (spec §4.2; exercised by
src/integration_tests/tests/test_procedures.py) -/

/-- Modelled from the spec: a published procedure version record of the
Version Store (§3, §4.2), whose backend implementation is not under src/. -/
structure ProcedureRecord where
  id : Nat
  version : Nat
  is_latest : Bool
  name : String
  description : String
  steps : List Step
  deriving Repr, DecidableEq

/-- Modelled from the spec: the mutable draft slot of a lineage (§9): the
field content of the pending version-0 working copy. -/
structure DraftFields where
  name : String
  description : String
  steps : List Step
  deriving Repr, DecidableEq

/-- Modelled from the spec: one procedure lineage of the Version Store (§9):
an append-only list of immutable published records plus a separate mutable
draft slot; `nextId` is the id allocator, every stored record's id is below
it. -/
structure Lineage where
  nextId : Nat
  published : List ProcedureRecord
  draft : Option DraftFields
  deriving Repr, DecidableEq

/-- Modelled from the spec: `createProcedure` (§4.2), absent from src/:
creates the lineage at version 1 with is_latest = true. -/
def createProcedure (nextId : Nat) (name description : String)
    (steps : List Step) : Lineage × ProcedureRecord :=
  let rec0 : ProcedureRecord :=
    { id := nextId, version := 1, is_latest := true
    , name := name, description := description, steps := steps }
  ({ nextId := nextId + 1, published := [rec0], draft := none }, rec0)

/-- The current latest published record of a lineage: the one carrying
is_latest. -/
def latestRecord (l : Lineage) : Option ProcedureRecord :=
  l.published.find? (·.is_latest)

/-- Modelled from the spec: the body of a PUT in-place procedure update —
only the specified fields are present. -/
structure ProcedureUpdate where
  name : Option String
  description : Option String
  steps : Option (List Step)
  deriving Repr, DecidableEq

/-- Modelled from the spec: `updateInPlace(lineageId, fields)` (§4.2),
absent from src/: mutates the draft (version 0) derived from the current
latest, leaves the immutable chain unchanged, and returns the draft with
version 0. -/
def updateInPlace (l : Lineage) (u : ProcedureUpdate) :
    Except ApiError (Lineage × ProcedureRecord) :=
  match latestRecord l with
  | none => .error .notFound
  | some latest =>
    let base : DraftFields := l.draft.getD
      { name := latest.name, description := latest.description, steps := latest.steps }
    let d : DraftFields :=
      { name := u.name.getD base.name
      , description := u.description.getD base.description
      , steps := u.steps.getD base.steps }
    .ok ({ l with draft := some d },
      { id := latest.id, version := 0, is_latest := false
      , name := d.name, description := d.description, steps := d.steps })

/-- Modelled from the spec: `createVersion(lineageId)` (§4.2), absent from
src/: atomically reads the current latest published version N, applies any
pending draft edits, writes a new immutable record with version N+1 and a
fresh id, is_latest = true, and flips the previous latest's is_latest to
false. -/
def createVersion (l : Lineage) :
    Except ApiError (Lineage × ProcedureRecord) :=
  match latestRecord l with
  | none => .error .notFound
  | some latest =>
    let fields : DraftFields := l.draft.getD
      { name := latest.name, description := latest.description, steps := latest.steps }
    let newRec : ProcedureRecord :=
      { id := l.nextId, version := latest.version + 1, is_latest := true
      , name := fields.name, description := fields.description, steps := fields.steps }
    let flipped := l.published.map fun r =>
      if r.is_latest then { r with is_latest := false } else r
    .ok ({ nextId := l.nextId + 1, published := flipped ++ [newRec], draft := none },
      newRec)

/-- C3: on a lineage whose latest published version is N (and whose stored
ids are below the id allocator), createVersion yields a new immutable record
with version N+1, an id distinct from the previous latest's id, and
is_latest = true; the previous latest's is_latest becomes false; and exactly
one record of the lineage carries is_latest afterwards. -/
theorem createVersion_new_latest (l : Lineage) (latest : ProcedureRecord)
    (hfind : latestRecord l = some latest)
    (hid : ∀ r ∈ l.published, r.id < l.nextId) :
    ∃ l' newRec, createVersion l = .ok (l', newRec)
      ∧ newRec.version = latest.version + 1
      ∧ newRec.id ≠ latest.id
      ∧ newRec.is_latest = true
      ∧ { latest with is_latest := false } ∈ l'.published
      ∧ l'.published.countP (·.is_latest) = 1 := by
  have hmem : latest ∈ l.published := List.mem_of_find?_eq_some hfind
  have hlat : latest.is_latest = true := by
    have := List.find?_some hfind
    simpa using this
  refine ⟨_, _, by rw [createVersion, hfind], rfl, ?_, rfl, ?_, ?_⟩
  · have hlt : latest.id < l.nextId := hid latest hmem
    exact fun h => absurd h.symm (Nat.ne_of_lt hlt)
  · simp only [List.mem_append]
    left
    refine List.mem_map.mpr ⟨latest, hmem, ?_⟩
    simp [hlat]
  · rw [List.countP_append]
    have hzero : (l.published.map fun r =>
        if r.is_latest then { r with is_latest := false } else r).countP
          (·.is_latest) = 0 := by
      rw [List.countP_eq_zero]
      intro a ha
      rcases List.mem_map.mp ha with ⟨r, _, hra⟩
      by_cases hb : r.is_latest = true
      · simp [hb] at hra
        simp [← hra]
      · simp [hb] at hra
        simp [← hra]
        simpa using hb
    rw [hzero]
    simp

/-- A concrete one-version lineage used to witness version promotion. -/
def sampleLineage : Lineage :=
  (createProcedure 0 "Versioned Procedure" "For version history test" []).1

/-- The latest record of `sampleLineage`. -/
def sampleLatest : ProcedureRecord :=
  { id := 0, version := 1, is_latest := true
  , name := "Versioned Procedure", description := "For version history test"
  , steps := [] }

/-- Witness for C3 at the concrete one-version lineage: promotion yields
version 2 with a fresh id and a single is_latest record. -/
theorem createVersion_new_latest_witness :
    ∃ l' newRec, createVersion sampleLineage = .ok (l', newRec)
      ∧ newRec.version = sampleLatest.version + 1
      ∧ newRec.id ≠ sampleLatest.id
      ∧ newRec.is_latest = true
      ∧ { sampleLatest with is_latest := false } ∈ l'.published
      ∧ l'.published.countP (·.is_latest) = 1 :=
  createVersion_new_latest sampleLineage sampleLatest (by decide)
    (by decide)

/-- C7: on an existing lineage, updateInPlace returns a record with version
0 carrying the applied field changes and leaves the published immutable
chain unchanged. -/
theorem updateInPlace_mutates_only_draft (l : Lineage) (u : ProcedureUpdate)
    (latest : ProcedureRecord) (hfind : latestRecord l = some latest) :
    ∃ l' d, updateInPlace l u = .ok (l', d)
      ∧ d.version = 0
      ∧ l'.published = l.published
      ∧ (∀ s, u.name = some s → d.name = s)
      ∧ (∀ s, u.description = some s → d.description = s)
      ∧ (∀ ss, u.steps = some ss → d.steps = ss) := by
  refine ⟨_, _, by rw [updateInPlace, hfind], ?_, ?_, ?_, ?_, ?_⟩
  · rfl
  · rfl
  · intro s h; simp [h]
  · intro s h; simp [h]
  · intro ss h; simp [h]

/-- Witness for C7 at the concrete lineage: updating only the description
returns a version-0 draft with the new description and the published chain
intact. -/
theorem updateInPlace_mutates_only_draft_witness :
    ∃ l' d, updateInPlace sampleLineage
        { name := none, description := some "Updated description", steps := none }
        = .ok (l', d)
      ∧ d.version = 0
      ∧ l'.published = sampleLineage.published
      ∧ (∀ s, (none : Option String) = some s → d.name = s)
      ∧ (∀ s, (some "Updated description" : Option String) = some s → d.description = s)
      ∧ (∀ ss, (none : Option (List Step)) = some ss → d.steps = ss) :=
  updateInPlace_mutates_only_draft sampleLineage
    { name := none, description := some "Updated description", steps := none }
    sampleLatest (by decide)

/-! ## Job Orchestrator (spec §4.4; exercised by
src/integration_tests/tests/test_jobs.py) -/

/-- A job's lifecycle status (§3). -/
inductive JobStatus where
  | created
  | running
  | success
  | failed
  deriving Repr, DecidableEq

/-- Modelled from the spec: the backend Job record (§3); the Job
Orchestrator implementation is not under src/. The configuration is the
tagged map of the request body. -/
structure Job where
  jtype : String
  status : JobStatus
  config : List (String × String)
  error_detail : Option String
  deriving Repr, DecidableEq

/-- The closed set of recognized job kinds (§4.4); the only kind exercised
by the tests is ui_exploration. -/
def recognizedJobTypes : List String := ["ui_exploration"]

/-- Look up a key in a job configuration map. -/
def lookupKey (config : List (String × String)) (k : String) : Option String :=
  (config.find? (fun kv => kv.1 = k)).map (fun kv => kv.2)

/-- Modelled from the spec: the fields required by each recognized job kind
(§4.4): for ui_exploration, an endpoint reference and a project reference
(the procedure name is optional). -/
def requiredFields : String → List String
  | "ui_exploration" => ["endpoint_id", "project_id"]
  | _ => []

/-- Modelled from the spec: `createJob(project, type, config)` (§4.4),
absent from src/: validates the type against the closed set (unrecognized →
InvalidConfig), validates that the config carries every required field
(missing → InvalidConfig), and persists the job in `created`, returning
immediately — dispatch is out-of-band. -/
def createJob (jtype : String) (config : List (String × String)) :
    Except ApiError Job :=
  if jtype ∈ recognizedJobTypes then
    match (requiredFields jtype).find? (fun k => (lookupKey config k).isNone) with
    | some _ => .error .invalidConfig
    | none => .ok { jtype := jtype, status := .created, config := config
                  , error_detail := none }
  else .error .invalidConfig

/-- C4: createJob with an unrecognized type fails with status 400; createJob
of type ui_exploration whose config lacks endpoint_id or project_id fails
with status 400; any job created by a successful call is in status
`created` (never running), and a recognized type with complete config
returns the job in `created` immediately. -/
theorem createJob_validation (jtype : String)
    (config : List (String × String)) :
    (jtype ∉ recognizedJobTypes →
      createJob jtype config = .error .invalidConfig
        ∧ ApiError.invalidConfig.statusCode = 400)
    ∧ (lookupKey config "endpoint_id" = none →
        createJob "ui_exploration" config = .error .invalidConfig)
    ∧ (lookupKey config "project_id" = none →
        createJob "ui_exploration" config = .error .invalidConfig)
    ∧ ((lookupKey config "endpoint_id").isSome →
        (lookupKey config "project_id").isSome →
        createJob "ui_exploration" config
          = .ok { jtype := "ui_exploration", status := .created
                , config := config, error_detail := none })
    ∧ (∀ j, createJob jtype config = .ok j → j.status = .created) := by
  refine ⟨?_, ?_, ?_, ?_, ?_⟩
  · intro h
    exact ⟨by simp [createJob, h], rfl⟩
  · intro h
    simp [createJob, recognizedJobTypes, requiredFields, List.find?, h]
  · intro h
    by_cases he : (lookupKey config "endpoint_id").isNone
    · simp [createJob, recognizedJobTypes, requiredFields, List.find?, he]
    · simp [createJob, recognizedJobTypes, requiredFields, List.find?, he, h]
  · intro he hp
    have he' : (lookupKey config "endpoint_id").isNone = false := by
      simpa using he
    have hp' : (lookupKey config "project_id").isNone = false := by
      simpa using hp
    simp [createJob, recognizedJobTypes, requiredFields, List.find?, he', hp']
  · intro j hj
    by_cases hmem : jtype ∈ recognizedJobTypes
    · rw [createJob, if_pos hmem] at hj
      cases hfind : (requiredFields jtype).find?
          (fun k => (lookupKey config k).isNone) with
      | none =>
        rw [hfind] at hj
        cases hj
        rfl
      | some k =>
        rw [hfind] at hj
        cases hj
    · rw [createJob, if_neg hmem] at hj
      cases hj

/-- Witness for C4 at concrete inputs: an unrecognized type and a config
missing endpoint_id are rejected with 400, a complete config yields a
created job. -/
theorem createJob_validation_witness :
    (createJob "invalid_type" [] = .error .invalidConfig
      ∧ ApiError.invalidConfig.statusCode = 400)
    ∧ createJob "ui_exploration" [("project_id", "p1")]
        = .error .invalidConfig
    ∧ createJob "ui_exploration" [("endpoint_id", "e1"), ("project_id", "p1")]
        = .ok { jtype := "ui_exploration", status := .created
              , config := [("endpoint_id", "e1"), ("project_id", "p1")]
              , error_detail := none } := by
  refine ⟨?_, ?_, ?_⟩
  · exact (createJob_validation "invalid_type" []).1 (by decide)
  · exact (createJob_validation "ui_exploration"
      [("project_id", "p1")]).2.1 (by decide)
  · exact (createJob_validation "ui_exploration"
      [("endpoint_id", "e1"), ("project_id", "p1")]).2.2.2.1
      (by decide) (by decide)

/-- Modelled from the spec: `stopJob(job)` (§4.4), absent from src/: legal
only when the job is running, in which case the job settles to failed;
otherwise it fails with InvalidTransition and the job is unchanged. The
returned pair is the job's state after the call and the call's outcome. -/
def stopJob (j : Job) : Job × Except ApiError Unit :=
  if j.status = .running then ({ j with status := .failed }, .ok ())
  else (j, .error .invalidTransition)

/-- C6: stopJob on a running job succeeds and settles the job to failed;
stopJob on a job in any other status — in particular `created` — fails with
InvalidTransition (status 400) and leaves the job unchanged. -/
theorem stopJob_only_from_running (j : Job) :
    (j.status = .running →
      stopJob j = ({ j with status := .failed }, .ok ()))
    ∧ (j.status ≠ .running →
        stopJob j = (j, .error .invalidTransition)
          ∧ ApiError.invalidTransition.statusCode = 400)
    ∧ (j.status = .created → (stopJob j).1 = j) := by
  refine ⟨?_, ?_, ?_⟩
  · intro h
    simp [stopJob, h]
  · intro h
    exact ⟨by simp [stopJob, h], rfl⟩
  · intro h
    simp [stopJob, h]

/-- A concrete freshly created job used to witness stop rejection. -/
def sampleCreatedJob : Job :=
  { jtype := "ui_exploration", status := .created
  , config := [("endpoint_id", "e1"), ("project_id", "p1")]
  , error_detail := none }

/-- Witness for C6: stopping a created job is rejected with 400 and leaves
it unchanged; stopping the same job once running settles it to failed. -/
theorem stopJob_only_from_running_witness :
    (stopJob sampleCreatedJob
        = (sampleCreatedJob, .error .invalidTransition)
      ∧ ApiError.invalidTransition.statusCode = 400)
    ∧ stopJob { sampleCreatedJob with status := .running }
        = ({ sampleCreatedJob with status := .failed }, .ok ()) := by
  refine ⟨?_, ?_⟩
  · exact (stopJob_only_from_running sampleCreatedJob).2.1 (by decide)
  · exact (stopJob_only_from_running
      { sampleCreatedJob with status := .running }).1 rfl

/-! ## Ownership Guard (spec §4.1; exercised by test_jobs.py
TestJobOwnership and test_runs.py TestAssignUserAuthorization) -/

/-- Modelled from the spec: a project with its owning identity (§3); the
backend is not under src/. -/
structure Project where
  pid : Nat
  owner : String
  deriving Repr, DecidableEq

/-- Modelled from the spec: a resource (procedure, run, job or asset)
reachable from — and authorized through — its owning project (§3). -/
structure OwnedResource where
  project : Project
  deriving Repr, DecidableEq

/-- The Ownership Guard's decision (§4.1). -/
inductive AuthDecision where
  | allow
  | forbidden
  deriving Repr, DecidableEq

/-- Modelled from the spec: `authorize(identity, resource)` of the Ownership
Guard (§4.1), absent from src/: allow iff the identity equals the owner. -/
def authorize (identity owner : String) : AuthDecision :=
  if identity = owner then .allow else .forbidden

/-- Modelled from the spec: a guarded read/write against a project-owned
resource (§4.1), absent from src/: every operation consults the guard first
and signals Forbidden on failure. -/
def guardedAccess (identity : String) (r : OwnedResource) :
    Except ApiError OwnedResource :=
  match authorize identity r.project.owner with
  | .allow => .ok r
  | .forbidden => .error .forbidden

/-- C5: a request by an authenticated identity other than the owning
project's owner is rejected with Forbidden (mapped to 403), and a guarded
request is allowed exactly when the identity equals the owning project's
owner. -/
theorem ownership_guard_allows_only_owner (identity owner : String)
    (r : OwnedResource) :
    (authorize identity owner = .allow ↔ identity = owner)
    ∧ (identity ≠ r.project.owner →
        guardedAccess identity r = .error .forbidden
          ∧ ApiError.forbidden.statusCode = 403)
    ∧ (guardedAccess identity r = .ok r ↔ identity = r.project.owner) := by
  refine ⟨?_, ?_, ?_⟩
  · constructor
    · intro h
      by_contra hne
      simp [authorize, hne] at h
    · intro h
      simp [authorize, h]
  · intro h
    exact ⟨by simp [guardedAccess, authorize, h], rfl⟩
  · constructor
    · intro h
      by_contra hne
      simp [guardedAccess, authorize, hne] at h
    · intro h
      simp [guardedAccess, authorize, h]

/-- A concrete resource owned by "owner-1" used to witness the guard. -/
def sampleResource : OwnedResource :=
  { project := { pid := 1, owner := "owner-1" } }

/-- Witness for C5: the second user is rejected with 403 on the first
user's resource, and the owner is allowed. -/
theorem ownership_guard_allows_only_owner_witness :
    (guardedAccess "user-2" sampleResource = .error .forbidden
      ∧ ApiError.forbidden.statusCode = 403)
    ∧ guardedAccess "owner-1" sampleResource = .ok sampleResource := by
  refine ⟨?_, ?_⟩
  · exact (ownership_guard_allows_only_owner "user-2" "owner-1"
      sampleResource).2.1 (by decide)
  · exact (ownership_guard_allows_only_owner "owner-1" "owner-1"
      sampleResource).2.2.mpr rfl

end UIAutomation
